import Mathlib

/-!
Shallow embedding of the two data-collection scripts of this repository:
`code/pull_tweets.py` (scrape a Twitter timeline and extract embedded media
URLs into a CSV) and `code/pull_text.py` (fetch each image URL, run OCR,
and write the recognized text to a CSV).

Python exceptions are modelled by an explicit error type `PyExc`; a Python
expression that may raise is embedded as an `Except PyExc` value.  The
external collaborators (the Twitter API, `requests`, PIL, pytesseract) are
modelled as parameters of the pipeline functions; the pandas calls that the
scripts make (`pd.json_normalize`, `pd.DataFrame(...).to_csv`,
`pd.Series(...).to_csv`) are given executable models faithful to pandas
semantics at the call sites.  Strings manipulated by the scripts are
modelled as `List Char`.
-/

/-- Kinds of Python exception relevant to these scripts.  `keyError` models
`KeyError` (the only exception class named in a handler of the source);
every other class is one of the remaining constructors. -/
inductive PyExc : Type
  | keyError
  | typeError
  | connectionError
  | otherError
deriving DecidableEq, Repr

/-- A minimal model of the JSON data carried by `tweet._json` in
`pull_tweets.py`: Python dicts, lists, strings and an opaque other case. -/
inductive PyJson : Type
  | str (s : String)
  | arr (items : List PyJson)
  | obj (fields : List (String × PyJson))
  | other
deriving Repr

/-- Look up a key in the field list of a Python dict (keys are unique in a
dict, so first match suffices). -/
def lookupField : List (String × PyJson) → String → Option PyJson
  | [], _ => none
  | (k, v) :: rest, key => if k = key then some v else lookupField rest key

/-- Python `d[key]` on a JSON value: raises `KeyError` when the dict lacks
the key, and a non-`KeyError` exception (`TypeError`) when the value
subscripted during record-path traversal is not a dict. -/
def dictGet (j : PyJson) (key : String) : Except PyExc PyJson :=
  match j with
  | .obj fields =>
    match lookupField fields key with
    | some v => .ok v
    | none => .error .keyError
  | _ => .error .typeError

/-- The `"media_url"` value of one media item, when the item is a dict
carrying that key with a string value. -/
def itemMediaUrl : PyJson → Option String
  | .obj fields =>
    match lookupField fields "media_url" with
    | some (.str s) => some s
    | _ => none
  | _ => none

/-- Model of `pd.json_normalize(tweet._json, ["entities", "media"])["media_url"]`
(pull_tweets.py line 25).  `json_normalize` walks the record path
`["entities", "media"]`: a missing key raises `KeyError`, a non-dict value on
the path raises a non-`KeyError` exception, and a list of media dicts
becomes one row per item.  Selecting the `"media_url"` column yields the
items' URLs in order; when the frame has no such column (empty media list,
or no item carries the key) the selection raises `KeyError`. -/
def jsonNormalizeMediaUrls (j : PyJson) : Except PyExc (List String) :=
  match dictGet j "entities" with
  | .error e => .error e
  | .ok entities =>
    match dictGet entities "media" with
    | .error e => .error e
    | .ok media =>
      match media with
      | .arr items =>
        let urls := items.filterMap itemMediaUrl
        if urls.isEmpty then .error .keyError else .ok urls
      | _ => .error .typeError

/-- The per-tweet loop of `pull_tweets.py` (lines 22–32): starting from the
empty `pd.Series()`, each iteration appends the tweet's `media_url` column
with `ignore_index=True`; `except KeyError: continue` skips the tweet, and
any other exception propagates out of the loop (the script has no other
handler, so it aborts the run). -/
def pullTweetsLoop : List PyJson → Except PyExc (List String)
  | [] => .ok []
  | t :: ts =>
    match jsonNormalizeMediaUrls t with
    | .ok urls =>
      match pullTweetsLoop ts with
      | .ok rest => .ok (urls ++ rest)
      | .error e => .error e
    | .error .keyError => pullTweetsLoop ts
    | .error e => .error e

/-- A tabular output file as produced by pandas `to_csv`: a header row and a
list of data rows, each row a list of cells. -/
structure CsvFile : Type where
  header : List String
  rows : List (List String)
deriving DecidableEq, Repr

/-- The file system: a map from paths to the CSV file stored there. -/
def FS : Type := String → Option CsvFile

/-- `to_csv(path)` with the default write mode: stores the file at the path,
replacing whatever was there. -/
def writeFile (fs : FS) (path : String) (f : CsvFile) : FS :=
  fun q => if q = path then some f else fs q

/-- Model of `pd.Series(urls).to_csv(path)` with pandas defaults
(pull_tweets.py line 36): `header=True` writes the index name (empty) and
the column name `0` of the unnamed series; each data row is the positional
index followed by the value. -/
def seriesToCsv (xs : List String) : CsvFile :=
  { header := ["", "0"],
    rows := xs.enum.map (fun p => [toString p.1, p.2]) }

/-- Output path of `pull_tweets.py`. -/
def tweetsOutPath : String :=
  "C:/Users/Rober/DATS_6103/project_2/data/cares_bot_image_urls.csv"

/-- Output path of `pull_text.py`. -/
def ocrOutPath : String :=
  "C:/Users/Rober/DATS_6103/project_2/data/cares_bot_survey_data.csv"

/-- The whole run of `pull_tweets.py`.  `enumerated` is the result of the
authentication and `tweepy.Cursor` enumeration (lines 11–19): `.error e`
when reaching or authenticating against the API raises, `.ok tweets`
otherwise.  On success the accumulated series is written to the output
path; an error anywhere aborts the script before the write. -/
def pullTweetsMain (enumerated : Except PyExc (List PyJson)) (fs : FS) :
    Except PyExc FS :=
  match enumerated with
  | .error e => .error e
  | .ok tweets =>
    match pullTweetsLoop tweets with
    | .error e => .error e
    | .ok urls => .ok (writeFile fs tweetsOutPath (seriesToCsv urls))

/-- A well-formed tweet JSON whose `entities.media` list carries the given
media URLs. -/
def mkMediaItem (u : String) : PyJson := .obj [("media_url", .str u)]

/-- Tweet JSON with `entities.media` holding one item per URL. -/
def mkTweetJson (urls : List String) : PyJson :=
  .obj [("entities", .obj [("media", .arr (urls.map mkMediaItem))])]

/-- Tweet JSON whose `entities` dict has no `"media"` key (a tweet with no
attached media). -/
def mkTweetNoMedia : PyJson := .obj [("entities", .obj [])]

/-- The image-processing capabilities used inside the OCR loop of
`pull_text.py`: `PIL.Image.open(BytesIO(payload))`, which decodes a fetched
payload of type `π` into an image of type `ι` or raises, and
`pytesseract.image_to_string`, which recognizes text or raises. -/
structure OcrEnv (π ι : Type) : Type where
  imageOpen : π → Except PyExc ι
  imageToString : ι → Except PyExc (List Char)

/-- Python `text.replace(old, new)` for the one-character pattern and
one-character replacement used at pull_text.py line 23
(`.replace("\n", " ")`): every occurrence of the pattern character is
replaced, independently, by exactly one copy of the replacement
character. -/
def replaceChar (old new : Char) (s : List Char) : List Char :=
  s.map (fun c => if c = old then new else c)

/-- The newline character of the pattern string at pull_text.py line 23. -/
def newlineChar : Char := Char.ofNat 10

/-- The space character of the replacement string at pull_text.py line 23. -/
def spaceChar : Char := Char.ofNat 32

/-- The body of the `try:` block of the OCR loop (pull_text.py lines 21–24):
decode the fetched payload, run recognition, and normalize newlines in the
recognized text.  Any exception from either call escapes the block. -/
def tryBody {π ι : Type} (env : OcrEnv π ι) (image : π) :
    Except PyExc (List Char) :=
  match env.imageOpen image with
  | .error e => .error e
  | .ok opened_image =>
    match env.imageToString opened_image with
    | .error e => .error e
    | .ok s => .ok (replaceChar newlineChar spaceChar s)

/-- The OCR loop of `pull_text.py` (lines 20–28) over
`enumerate(image_requests)` starting at `index`: a successful try-body
appends the normalized text to `respondent_info`; the bare `except:`
catches every exception, appends the item's index to `errors`, and
continues.  Returns `(respondent_info, errors)`. -/
def pullTextLoop {π ι : Type} (env : OcrEnv π ι) :
    List π → Nat → List (List Char) × List Nat
  | [], _ => ([], [])
  | image :: rest, index =>
    let r := pullTextLoop env rest (index + 1)
    match tryBody env image with
    | .ok text => (text :: r.1, r.2)
    | .error _ => (r.1, index :: r.2)

/-- Model of `cares_bot["images"].apply(requests.get)` (pull_text.py
line 11): every URL is fetched eagerly, before the OCR loop runs; a raising
fetch propagates out of `apply` and aborts the script. -/
def applyFetch {π : Type} (fetch : String → Except PyExc π) :
    List String → Except PyExc (List π)
  | [] => .ok []
  | u :: us =>
    match fetch u with
    | .error e => .error e
    | .ok p =>
      match applyFetch fetch us with
      | .error e => .error e
      | .ok ps => .ok (p :: ps)

/-- Model of `pd.DataFrame(records).to_csv(path, index=False)`
(pull_text.py lines 31–32): one column, named `0` by pandas, one row per
record, no index column.  `pd.DataFrame([])` has no columns at all, so an
empty record list yields an empty header. -/
def dataFrameToCsvNoIndex (records : List (List Char)) : CsvFile :=
  { header := if records.isEmpty then [] else ["0"],
    rows := records.map (fun r => [String.mk r]) }

/-- The whole run of `pull_text.py`.  `csvRows` is the result of
`pd.read_csv(...)` on the input file (line 8): `.error e` when reading
raises, `.ok urls` the enumerated image URLs otherwise.  The URLs are all
fetched eagerly, then the OCR loop runs, then the collected texts are
written to the output path.  An exception during reading or fetching aborts
the script before anything is written. -/
def pullTextMain {π ι : Type} (csvRows : Except PyExc (List String))
    (fetch : String → Except PyExc π) (env : OcrEnv π ι) (fs : FS) :
    Except PyExc FS :=
  match csvRows with
  | .error e => .error e
  | .ok urls =>
    match applyFetch fetch urls with
    | .error e => .error e
    | .ok image_requests =>
      let r := pullTextLoop env image_requests 0
      .ok (writeFile fs ocrOutPath (dataFrameToCsvNoIndex r.1))

/-- A concrete instance of the OCR environment used to exercise the
pipeline on closed inputs: a payload is `some t` when it decodes to an
image whose recognized text is `t`, and `none` when decoding raises (for
example a non-image payload such as an HTML error page). -/
def ocrEnvOfOutcome : OcrEnv (Option (List Char)) (List Char) :=
  { imageOpen := fun p =>
      match p with
      | some t => .ok t
      | none => .error .otherError,
    imageToString := fun t => .ok t }

example : jsonNormalizeMediaUrls (mkTweetJson ["u1", "u2"]) = .ok ["u1", "u2"] := rfl
example : jsonNormalizeMediaUrls mkTweetNoMedia = .error .keyError := rfl
example : jsonNormalizeMediaUrls (mkTweetJson []) = .error .keyError := rfl
example : jsonNormalizeMediaUrls (.obj [("entities", .str "broken")]) = .error .typeError := rfl
example : pullTweetsLoop [mkTweetJson ["a"], mkTweetNoMedia, mkTweetJson ["b", "c"]] = .ok ["a", "b", "c"] := rfl
example : pullTweetsLoop [.obj [("entities", .str "broken")], mkTweetJson ["a"]] = .error .typeError := rfl
example : seriesToCsv ["u"] = { header := ["", "0"], rows := [["0", "u"]] } := by decide
example : tryBody ocrEnvOfOutcome (some "ab".data) = .ok "ab".data := rfl
example : tryBody ocrEnvOfOutcome none = .error .otherError := rfl
example :
    pullTextLoop ocrEnvOfOutcome [some "a".data, none, some "c".data, none, some "e".data] 0
      = (["a".data, "c".data, "e".data], [1, 3]) := by decide
example : replaceChar newlineChar spaceChar "a\nb\n\nc".data = "a b  c".data := by decide

/-! ### Helper lemmas -/

/-- Every iteration of the OCR loop contributes exactly one element, either
to `respondent_info` or to `errors`. -/
theorem pullTextLoop_length {π ι : Type} (env : OcrEnv π ι) (ps : List π) :
    ∀ (idx : Nat),
      (pullTextLoop env ps idx).1.length + (pullTextLoop env ps idx).2.length
        = ps.length := by
  induction ps with
  | nil => intro idx; simp [pullTextLoop]
  | cons p rest ih =>
    intro idx
    cases h : tryBody env p with
    | ok t => simp [pullTextLoop, h]; have := ih (idx + 1); omega
    | error e => simp [pullTextLoop, h]; have := ih (idx + 1); omega

/-- Each well-formed media item exposes exactly its URL. -/
theorem filterMap_itemMediaUrl (us : List String) :
    (us.map mkMediaItem).filterMap itemMediaUrl = us := by
  induction us with
  | nil => rfl
  | cons u us ih =>
    simp only [List.map_cons, List.filterMap_cons]
    have h : itemMediaUrl (mkMediaItem u) = some u := rfl
    rw [h, ih]

/-- Extracting the media URLs of a well-formed tweet with a nonempty media
list succeeds with all its URLs, in order. -/
theorem mkTweetJson_normalize (us : List String) (h : us ≠ []) :
    jsonNormalizeMediaUrls (mkTweetJson us) = .ok us := by
  have h2 : jsonNormalizeMediaUrls (mkTweetJson us) =
      (if ((us.map mkMediaItem).filterMap itemMediaUrl).isEmpty then
        .error .keyError
      else .ok ((us.map mkMediaItem).filterMap itemMediaUrl)) := rfl
  rw [h2, filterMap_itemMediaUrl, if_neg (by simp [List.isEmpty_iff, h])]

/-- The tweet loop over well-formed tweets with nonempty media lists
collects the concatenation of all their URL lists. -/
theorem pullTweetsLoop_wellFormed :
    ∀ (uss : List (List String)), (∀ us ∈ uss, us ≠ []) →
      pullTweetsLoop (uss.map mkTweetJson) = .ok uss.flatten
  | [], _ => rfl
  | us :: uss, h => by
    have h1 := mkTweetJson_normalize us (h us (by simp))
    have ih := pullTweetsLoop_wellFormed uss (fun vs hv => h vs (by simp [hv]))
    simp [pullTweetsLoop, h1, ih]

/-- A successful try-body always produced its text through the newline
normalization of line 23. -/
theorem tryBody_ok_shape {π ι : Type} (env : OcrEnv π ι) (p : π)
    (t : List Char) (h : tryBody env p = .ok t) :
    ∃ s, t = replaceChar newlineChar spaceChar s := by
  unfold tryBody at h
  split at h
  · cases h
  · split at h
    · cases h
    · exact ⟨_, (Except.ok.inj h).symm⟩

/-- Newline normalization leaves no newline character behind. -/
theorem newlineChar_not_mem_replaceChar (s : List Char) :
    newlineChar ∉ replaceChar newlineChar spaceChar s := by
  intro hmem
  rw [replaceChar, List.mem_map] at hmem
  obtain ⟨c, _, hc⟩ := hmem
  by_cases h : c = newlineChar
  · rw [if_pos h] at hc
    exact absurd hc (by decide)
  · rw [if_neg h] at hc
    exact h hc

/-- Every string collected in `respondent_info` by the OCR loop is free of
newline characters. -/
theorem pullTextLoop_no_newline {π ι : Type} (env : OcrEnv π ι)
    (ps : List π) : ∀ (idx : Nat) (s : List Char),
      s ∈ (pullTextLoop env ps idx).1 → newlineChar ∉ s := by
  induction ps with
  | nil => intro idx s hs; simp [pullTextLoop] at hs
  | cons p rest ih =>
    intro idx s hs
    cases h : tryBody env p with
    | ok t =>
      simp only [pullTextLoop, h] at hs
      rcases List.mem_cons.mp hs with h1 | h1
      · obtain ⟨s0, hs0⟩ := tryBody_ok_shape env p t h
        rw [h1, hs0]
        exact newlineChar_not_mem_replaceChar s0
      · exact ih (idx + 1) s h1
    | error e =>
      simp only [pullTextLoop, h] at hs
      exact ih (idx + 1) s hs

/-! ### Claim theorems -/

/-- C1 counterexample: the claim fails on the link-extraction pipeline.  A
run enumerating one tweet without media appends no DerivedRecord and the
script keeps no failure-index list at all (the `except KeyError` handler
only runs `continue`), so 0 derived plus 0 recorded failure indices differs
from the 1 record enumerated. -/
theorem C1_counterexample :
    pullTweetsLoop [mkTweetNoMedia] = .ok ([] : List String) ∧
    ([] : List String).length + 0 ≠ ([mkTweetNoMedia] : List PyJson).length :=
  ⟨rfl, by decide⟩

/-- C1 (amended): in the OCR pipeline every enumerated record yields
exactly one outcome, so `len(respondent_info) + len(errors)` equals the
number of records enumerated.  The link-extraction pipeline records no
failure indices, and a successful post contributes one derived record per
media URL, so there the number of derived records equals the total number
of media URLs of the successfully extracted posts. -/
theorem C1_amended :
    (∀ {π ι : Type} (env : OcrEnv π ι) (ps : List π) (idx : Nat),
      (pullTextLoop env ps idx).1.length + (pullTextLoop env ps idx).2.length
        = ps.length) ∧
    (∀ (uss : List (List String)), (∀ us ∈ uss, us ≠ []) →
      pullTweetsLoop (uss.map mkTweetJson) = .ok uss.flatten ∧
      uss.flatten.length = (uss.map List.length).sum) := by
  refine ⟨fun env ps idx => pullTextLoop_length env ps idx, fun uss h => ?_⟩
  exact ⟨pullTweetsLoop_wellFormed uss h, by simp⟩

/-- C1 witness: the amended statement at concrete inputs. -/
theorem C1_witness :
    (pullTextLoop ocrEnvOfOutcome [some "a".data, none] 0).1.length +
      (pullTextLoop ocrEnvOfOutcome [some "a".data, none] 0).2.length = 2 ∧
    pullTweetsLoop ([["u", "v"]].map mkTweetJson) = .ok ["u", "v"] :=
  ⟨C1_amended.1 ocrEnvOfOutcome [some "a".data, none] 0, by
    have h := (C1_amended.2 [["u", "v"]] (by simp)).1
    simpa using h⟩

/-- C2 counterexample: for a post with two attached media items the code
appends both URLs, not only the first one. -/
theorem C2_counterexample :
    jsonNormalizeMediaUrls (mkTweetJson ["u1", "u2"]) = .ok ["u1", "u2"] ∧
    jsonNormalizeMediaUrls (mkTweetJson ["u1", "u2"]) ≠ .ok ["u1"] := by
  refine ⟨rfl, fun h => ?_⟩
  have h0 : jsonNormalizeMediaUrls (mkTweetJson ["u1", "u2"])
      = Except.ok ["u1", "u2"] := rfl
  rw [h0] at h
  exact absurd (Except.ok.inj h) (by decide)

/-- C2 (amended): a post with zero attached media (no `media` key, or an
empty media list) signals `MissingField` (`KeyError`); a post with N ≥ 1
attached media items yields all N URLs in order, one derived record per
media URL. -/
theorem C2_amended :
    jsonNormalizeMediaUrls mkTweetNoMedia = .error .keyError ∧
    jsonNormalizeMediaUrls (mkTweetJson []) = .error .keyError ∧
    ∀ (us : List String), us ≠ [] →
      jsonNormalizeMediaUrls (mkTweetJson us) = .ok us :=
  ⟨rfl, rfl, mkTweetJson_normalize⟩

/-- C2 witness: the amended statement at a concrete one-media post. -/
theorem C2_witness : jsonNormalizeMediaUrls (mkTweetJson ["u"]) = .ok ["u"] :=
  C2_amended.2.2 ["u"] (by decide)

/-- C3 counterexample: a fetch that raises (for example a connection error)
happens inside the eager `apply(requests.get)` of line 11, outside any
handler, so the run aborts instead of recording the item and continuing. -/
theorem C3_counterexample :
    pullTextMain (.ok ["http://img"])
      (fun _ => (.error .connectionError : Except PyExc (Option (List Char))))
      ocrEnvOfOutcome (fun _ => none) = .error .connectionError := rfl

/-- C3 (amended): a per-item decode or recognition failure — including a
fetched non-image payload — is recovered by the bare `except:`: the index
is recorded and the loop continues; when every fetch returns, the run
completes and writes.  But a fetch that raises occurs during the eager
fetch phase before the loop and aborts the whole run uncaught. -/
theorem C3_amended :
    (∀ {π ι : Type} (env : OcrEnv π ι) (p : π) (ps : List π) (idx : Nat)
      (e : PyExc), tryBody env p = .error e →
      pullTextLoop env (p :: ps) idx =
        ((pullTextLoop env ps (idx + 1)).1,
          idx :: (pullTextLoop env ps (idx + 1)).2)) ∧
    (∀ {π ι : Type} (env : OcrEnv π ι) (fetch : String → Except PyExc π)
      (urls : List String) (pays : List π) (fs : FS),
      applyFetch fetch urls = .ok pays →
      pullTextMain (.ok urls) fetch env fs =
        .ok (writeFile fs ocrOutPath
          (dataFrameToCsvNoIndex (pullTextLoop env pays 0).1))) ∧
    (∀ {π ι : Type} (env : OcrEnv π ι) (fetch : String → Except PyExc π)
      (urls : List String) (e : PyExc) (fs : FS),
      applyFetch fetch urls = .error e →
      pullTextMain (.ok urls) fetch env fs = .error e) := by
  refine ⟨fun env p ps idx e h => ?_, fun env fetch urls pays fs h => ?_,
    fun env fetch urls e fs h => ?_⟩
  · simp [pullTextLoop, h]
  · simp [pullTextMain, h]
  · simp [pullTextMain, h]

/-- C3 witness: the amended statement at concrete inputs. -/
theorem C3_witness :
    pullTextLoop ocrEnvOfOutcome [none, some "a".data] 0 =
      ((pullTextLoop ocrEnvOfOutcome [some "a".data] 1).1,
        0 :: (pullTextLoop ocrEnvOfOutcome [some "a".data] 1).2) ∧
    pullTextMain (.ok [])
      (fun _ => (.ok none : Except PyExc (Option (List Char))))
      ocrEnvOfOutcome (fun _ => none) =
      .ok (writeFile (fun _ => none) ocrOutPath
        (dataFrameToCsvNoIndex
          (pullTextLoop ocrEnvOfOutcome ([] : List (Option (List Char))) 0).1)) ∧
    pullTextMain (.ok ["u"])
      (fun _ => (.error .connectionError : Except PyExc (Option (List Char))))
      ocrEnvOfOutcome (fun _ => none) = .error .connectionError :=
  ⟨C3_amended.1 ocrEnvOfOutcome none [some "a".data] 0 PyExc.otherError rfl,
    C3_amended.2.1 ocrEnvOfOutcome _ [] [] _ rfl,
    C3_amended.2.2 ocrEnvOfOutcome _ ["u"] PyExc.connectionError _ rfl⟩

/-- C4 counterexample: in the link-extraction pipeline a per-item failure
other than `KeyError` — here a malformed `entities` value making
`json_normalize` raise a `TypeError` — is not caught by `except KeyError`
and aborts the run instead of letting the loop continue. -/
theorem C4_counterexample :
    pullTweetsMain
      (.ok [.obj [("entities", .str "broken")], mkTweetJson ["u"]])
      (fun _ => none) = .error .typeError := rfl

/-- C4 (amended): in the OCR pipeline every per-item failure is recovered
locally and the loop continues.  In the link-extraction pipeline only
`KeyError` failures are recovered; any per-item failure of another kind
propagates and aborts the run. -/
theorem C4_amended :
    (∀ {π ι : Type} (env : OcrEnv π ι) (p : π) (ps : List π) (idx : Nat)
      (e : PyExc), tryBody env p = .error e →
      pullTextLoop env (p :: ps) idx =
        ((pullTextLoop env ps (idx + 1)).1,
          idx :: (pullTextLoop env ps (idx + 1)).2)) ∧
    (∀ (t : PyJson) (ts : List PyJson),
      jsonNormalizeMediaUrls t = .error .keyError →
      pullTweetsLoop (t :: ts) = pullTweetsLoop ts) ∧
    (∀ (t : PyJson) (ts : List PyJson) (e : PyExc),
      jsonNormalizeMediaUrls t = .error e → e ≠ .keyError →
      pullTweetsLoop (t :: ts) = .error e) := by
  refine ⟨fun env p ps idx e h => ?_, fun t ts h => ?_, fun t ts e h hne => ?_⟩
  · simp [pullTextLoop, h]
  · simp [pullTweetsLoop, h]
  · cases e with
    | keyError => exact absurd rfl hne
    | typeError => simp [pullTweetsLoop, h]
    | connectionError => simp [pullTweetsLoop, h]
    | otherError => simp [pullTweetsLoop, h]

/-- C4 witness: the amended statement at concrete inputs. -/
theorem C4_witness :
    pullTextLoop ocrEnvOfOutcome [none] 5 = ([], [5]) ∧
    pullTweetsLoop [mkTweetNoMedia, mkTweetJson ["u"]] =
      pullTweetsLoop [mkTweetJson ["u"]] ∧
    pullTweetsLoop [.obj [("entities", .str "broken")]] = .error .typeError :=
  ⟨by
    have h := C4_amended.1 ocrEnvOfOutcome none ([] : List (Option (List Char)))
      5 PyExc.otherError rfl
    simpa using h,
    C4_amended.2.1 mkTweetNoMedia [mkTweetJson ["u"]] rfl,
    C4_amended.2.2 (.obj [("entities", .str "broken")]) [] PyExc.typeError rfl
      (by decide)⟩

/-- C5: when enumeration fails fatally (the source cannot be reached or
authenticated, or the input file cannot be read), the run aborts with that
error before the sink writer runs; no file-system state is produced, so
nothing partial is persisted. -/
theorem C5_enumeration_fatal :
    (∀ (e : PyExc) (fs : FS), pullTweetsMain (.error e) fs = .error e) ∧
    (∀ {π ι : Type} (e : PyExc) (fetch : String → Except PyExc π)
      (env : OcrEnv π ι) (fs : FS),
      pullTextMain (.error e) fetch env fs = .error e) :=
  ⟨fun _ _ => rfl, fun _ _ _ _ => rfl⟩

/-- C6: when enumeration yields five items of which the ones at positions 1
and 3 fail, the loop hands the sink writer exactly the three derived
records of positions 0, 2 and 4, in that order, and the error list holds
exactly `[1, 3]`. -/
theorem C6_scenario {π ι : Type} (env : OcrEnv π ι) (p0 p1 p2 p3 p4 : π)
    (t0 t2 t4 : List Char) (e1 e3 : PyExc)
    (h0 : tryBody env p0 = .ok t0) (h1 : tryBody env p1 = .error e1)
    (h2 : tryBody env p2 = .ok t2) (h3 : tryBody env p3 = .error e3)
    (h4 : tryBody env p4 = .ok t4) :
    pullTextLoop env [p0, p1, p2, p3, p4] 0 = ([t0, t2, t4], [1, 3]) ∧
    (dataFrameToCsvNoIndex [t0, t2, t4]).rows.length = 3 := by
  constructor
  · simp [pullTextLoop, h0, h1, h2, h3, h4]
  · simp [dataFrameToCsvNoIndex]

/-- C6 witness: the scenario at concrete inputs. -/
theorem C6_witness :
    pullTextLoop ocrEnvOfOutcome
      [some "a".data, none, some "c".data, none, some "e".data] 0 =
      (["a".data, "c".data, "e".data], [1, 3]) ∧
    (dataFrameToCsvNoIndex ["a".data, "c".data, "e".data]).rows.length = 3 :=
  C6_scenario ocrEnvOfOutcome (some "a".data) none (some "c".data) none
    (some "e".data) "a".data "c".data "e".data PyExc.otherError
    PyExc.otherError rfl rfl rfl rfl rfl

/-- C7 counterexample: the link-extraction output is not single-column.
`Series.to_csv` keeps the index by default, so each data row carries two
cells: the positional index and the media URL. -/
theorem C7_counterexample :
    pullTweetsMain (.ok [mkTweetJson ["u1"]]) (fun _ => none) =
      .ok (writeFile (fun _ => none) tweetsOutPath (seriesToCsv ["u1"])) ∧
    (seriesToCsv ["u1"]).rows = [["0", "u1"]] ∧
    (["0", "u1"] : List String).length ≠ 1 :=
  ⟨rfl, rfl, by decide⟩

/-- C7 (amended): the OCR output is a single-column file with one row per
derived record; the link-extraction output has one row per extracted media
URL (so possibly several per post) and two cells per row — the index column
plus the URL.  Both writes overwrite whatever is at the configured path. -/
theorem C7_amended :
    (∀ (records : List (List Char)),
      (dataFrameToCsvNoIndex records).rows.length = records.length ∧
      ∀ r ∈ (dataFrameToCsvNoIndex records).rows, r.length = 1) ∧
    (∀ (urls : List String),
      (seriesToCsv urls).rows.length = urls.length ∧
      ∀ r ∈ (seriesToCsv urls).rows, r.length = 2) ∧
    (∀ (fs : FS) (path : String) (f : CsvFile),
      writeFile fs path f path = some f) := by
  refine ⟨fun records => ⟨by simp [dataFrameToCsvNoIndex], ?_⟩,
    fun urls => ⟨by simp [seriesToCsv], ?_⟩,
    fun fs path f => by simp [writeFile]⟩
  · intro r hr
    rw [dataFrameToCsvNoIndex] at hr
    obtain ⟨t, _, ht⟩ := List.mem_map.mp hr
    rw [← ht]
    rfl
  · intro r hr
    rw [seriesToCsv] at hr
    obtain ⟨p, _, hp⟩ := List.mem_map.mp hr
    rw [← hp]
    rfl

/-- C7 witness: the amended statement at concrete inputs. -/
theorem C7_witness :
    (dataFrameToCsvNoIndex ["a".data]).rows.length = 1 ∧
    (["a"] : List String).length = 1 ∧
    (["0", "u"] : List String).length = 2 ∧
    writeFile (fun _ => none) tweetsOutPath (seriesToCsv []) tweetsOutPath =
      some (seriesToCsv []) :=
  ⟨(C7_amended.1 ["a".data]).1,
    (C7_amended.1 ["a".data]).2 ["a"] (by decide),
    (C7_amended.2.1 ["u"]).2 ["0", "u"] (by decide),
    C7_amended.2.2 (fun _ => none) tweetsOutPath (seriesToCsv [])⟩

/-- C8: when enumeration yields zero items both runs still reach the sink
writer and write a valid empty output (header-only or fully empty: no data
rows) instead of raising. -/
theorem C8_empty_enumeration :
    (∀ {π ι : Type} (fetch : String → Except PyExc π) (env : OcrEnv π ι)
      (fs : FS),
      pullTextMain (.ok []) fetch env fs =
        .ok (writeFile fs ocrOutPath (dataFrameToCsvNoIndex [])) ∧
      (dataFrameToCsvNoIndex []).rows = []) ∧
    (∀ (fs : FS),
      pullTweetsMain (.ok []) fs =
        .ok (writeFile fs tweetsOutPath (seriesToCsv [])) ∧
      (seriesToCsv []).rows = []) :=
  ⟨fun _ _ _ => ⟨rfl, rfl⟩, fun _ => ⟨rfl, rfl⟩⟩

/-- C9: every record the OCR loop collects is newline-free, and the
normalization of line 23 is length-preserving and turns exactly the
newline positions of the recognized text into single spaces, leaving every
other character unchanged. -/
theorem C9_newline_normalization :
    (∀ {π ι : Type} (env : OcrEnv π ι) (ps : List π) (idx : Nat)
      (s : List Char), s ∈ (pullTextLoop env ps idx).1 → newlineChar ∉ s) ∧
    (∀ (t : List Char),
      (replaceChar newlineChar spaceChar t).length = t.length) ∧
    (∀ (t : List Char) (i : Nat) (h : i < t.length)
      (h2 : i < (replaceChar newlineChar spaceChar t).length),
      (replaceChar newlineChar spaceChar t).get ⟨i, h2⟩ =
        if t.get ⟨i, h⟩ = newlineChar then spaceChar else t.get ⟨i, h⟩) := by
  refine ⟨fun env ps idx s hs => pullTextLoop_no_newline env ps idx s hs,
    fun t => by simp [replaceChar], fun t i h h2 => ?_⟩
  simp [replaceChar]

/-- C9 witness: the statement at concrete inputs. -/
theorem C9_witness :
    newlineChar ∉ "a b".data ∧
    (replaceChar newlineChar spaceChar "a\nb".data).length = 3 ∧
    (replaceChar newlineChar spaceChar "a\nb".data).get ⟨1, by decide⟩ =
      (if "a\nb".data.get ⟨1, by decide⟩ = newlineChar then spaceChar
      else "a\nb".data.get ⟨1, by decide⟩) :=
  ⟨C9_newline_normalization.1 ocrEnvOfOutcome [some "a\nb".data] 0 "a b".data
      (by decide),
    C9_newline_normalization.2.1 "a\nb".data,
    C9_newline_normalization.2.2 "a\nb".data 1 (by decide) (by decide)⟩

/-- C10: a tweet whose `entities.media` field holds N ≥ 1 items contributes
all N media URLs to the output sequence, in their original order, ahead of
the URLs of the remaining tweets. -/
theorem C10_all_media_urls (us : List String) (ts : List PyJson)
    (rest : List String) (hne : us ≠ [])
    (hts : pullTweetsLoop ts = .ok rest) :
    pullTweetsLoop (mkTweetJson us :: ts) = .ok (us ++ rest) := by
  simp [pullTweetsLoop, mkTweetJson_normalize us hne, hts]

/-- C10 witness: a two-media tweet contributes both URLs in order. -/
theorem C10_witness :
    pullTweetsLoop [mkTweetJson ["a", "b"]] = .ok ["a", "b"] := by
  have h := C10_all_media_urls ["a", "b"] [] [] (by decide) rfl
  simpa using h
